import Mathlib

/-!
Verification of the EvalML AutoML core: a shallow embedding of
`evalml/automl/automl_algorithm/evalml_algorithm.py` (the `EvalMLAlgorithm`
batch state machine) and `evalml/tuners/skopt_tuner.py` (the `SKOptTuner`),
together with theorems settling the specification claims about them.

External collaborators (the pipeline factory, the estimator registry, the
skopt optimizer backend) are modelled as opaque environment functions, as the
specification treats them purely at their interface boundary.  Repository
code that is referenced but not part of the analysed sources (the
`AutoMLAlgorithm` base class bookkeeping, the base `Tuner` flattening
helpers) is modelled from the specification; each such definition carries a
doc comment saying so.
-/

/- ===================================================================
   Part 1: constructor validation (EvalMLAlgorithm.__init__, lines 108-126)
   =================================================================== -/

/-- A leaf hyperparameter value.  `spaceInteger`, `spaceReal` and
`spaceCategorical` model the skopt.space classes `Integer`, `Real` and
`Categorical`; the `plain*` constructors model ordinary Python scalars. -/
inductive HPVal where
  | spaceInteger : HPVal
  | spaceReal : HPVal
  | spaceCategorical : HPVal
  | plainInt : Int → HPVal
  | plainStr : String → HPVal
  deriving DecidableEq, Repr

/-- `isinstance(v, (Integer, Real, Categorical))` from the source. -/
def HPVal.isSpace : HPVal → Bool
  | .spaceInteger => true
  | .spaceReal => true
  | .spaceCategorical => true
  | .plainInt _ => false
  | .plainStr _ => false

/-- A per-component value inside `pipeline_params` / `custom_hyperparameters`:
either a Python dict mapping parameter names to leaf values, or a non-dict
value (e.g. a plain int), on which `.items()` raises `AttributeError`. -/
inductive CompVal where
  | dict : List (String × HPVal) → CompVal
  | nonDict : HPVal → CompVal
  deriving DecidableEq, Repr

/-- A top-level argument (`pipeline_params` or `custom_hyperparameters`):
`pyNone` models the default `None`; `dict` a mapping from component names to
per-component values; `nonDict` any other Python value, tagged with its
truthiness (e.g. the empty list `[]` is a falsy non-mapping). -/
inductive TopArg where
  | pyNone : TopArg
  | dict : List (String × CompVal) → TopArg
  | nonDict : (truthy : Bool) → TopArg
  deriving DecidableEq, Repr

/-- Python truthiness of a `TopArg` (an empty dict is falsy). -/
def TopArg.truthy : TopArg → Bool
  | .pyNone => false
  | .dict es => !es.isEmpty
  | .nonDict t => t

/-- `isinstance(x, dict)`. -/
def TopArg.isDict : TopArg → Bool
  | .dict _ => true
  | _ => false

/-- `x or {}` from the source (lines 104-105). -/
def TopArg.orEmpty (a : TopArg) : TopArg :=
  if a.truthy then a else .dict []

/-- Errors the constructor can raise.  The source raises Python `ValueError`
for the two configuration mistakes; the specification's error taxonomy calls
this construction-time failure `ConfigurationError`.  `attributeError` models
the `AttributeError` raised by calling `.values()` / `.items()` on a
non-mapping. -/
inductive InitErr where
  | configurationError : String → InitErr
  | attributeError : InitErr
  deriving DecidableEq, Repr

/-- Message of the `ValueError` for a non-dict `custom_hyperparameters`
(source lines 109-111; the dynamic type formatting is elided). -/
def msgCustomType : String :=
  "If custom_hyperparameters provided, must be of type dict"

/-- Message of the `ValueError` for skopt.Space values inside
`pipeline_params` (source lines 116-119). -/
def msgPipelineSpace : String :=
  "Pipeline parameters should not contain skopt.Space variables, please pass them to custom_hyperparameters instead!"

/-- Message of the `ValueError` for non-skopt.Space leaves inside
`custom_hyperparameters` (source lines 123-126). -/
def msgCustomLeaf : String :=
  "Custom hyperparameters should only contain skopt.Space variables such as Categorical, Integer, and Real!"

/-- `.values()` on a top-level argument: raises `AttributeError` unless the
value is a dict. -/
def TopArg.valuesOf : TopArg → Except InitErr (List CompVal)
  | .dict es => .ok (es.map Prod.snd)
  | .pyNone => .error .attributeError
  | .nonDict _ => .error .attributeError

/-- The loop over `self._pipeline_params.values()` (source lines 113-119):
for each per-component value, iterate `.items()` (raising `AttributeError`
when the value is not a mapping) and raise `ValueError` on any skopt.Space
leaf. -/
def check_pipeline_param_vals : List CompVal → Except InitErr Unit
  | [] => .ok ()
  | .nonDict _ :: _ => .error .attributeError
  | .dict entries :: rest =>
    if entries.any (fun e => HPVal.isSpace e.2) then
      .error (.configurationError msgPipelineSpace)
    else
      check_pipeline_param_vals rest

/-- The loop over `self._custom_hyperparameters.values()` (source lines
120-126): for each per-component value, iterate `.items()` (raising
`AttributeError` when the value is not a mapping) and raise `ValueError` on
any leaf that is not a skopt.Space object. -/
def check_custom_hp_vals : List CompVal → Except InitErr Unit
  | [] => .ok ()
  | .nonDict _ :: _ => .error .attributeError
  | .dict entries :: rest =>
    if entries.any (fun e => !HPVal.isSpace e.2) then
      .error (.configurationError msgCustomLeaf)
    else
      check_custom_hp_vals rest

/-- The `pipeline_params` side of the constructor: `pipeline_params or {}`
followed by the loop over its values. -/
def pipeline_params_check (pipeline_params : TopArg) : Except InitErr Unit := do
  let vs ← pipeline_params.orEmpty.valuesOf
  check_pipeline_param_vals vs

/-- The `custom_hyperparameters` side of the constructor:
`custom_hyperparameters or {}` followed by the loop over its values. -/
def custom_hyperparameters_check (custom_hyperparameters : TopArg) : Except InitErr Unit := do
  let vs ← custom_hyperparameters.orEmpty.valuesOf
  check_custom_hp_vals vs

/-- The validation performed by `EvalMLAlgorithm.__init__` (source lines
108-126), in source order: the type check on `custom_hyperparameters`, then
the loop over `pipeline_params` values, then the loop over
`custom_hyperparameters` values. -/
def init_check (pipeline_params custom_hyperparameters : TopArg) : Except InitErr Unit :=
  if custom_hyperparameters.truthy = true ∧ custom_hyperparameters.isDict = false then
    .error (.configurationError msgCustomType)
  else do
    pipeline_params_check pipeline_params
    custom_hyperparameters_check custom_hyperparameters

/- ===================================================================
   Part 2: the SKOpt tuner (evalml/tuners/skopt_tuner.py)
   =================================================================== -/

/-- A Python float-or-None score as passed to `SKOptTuner.add`. -/
inductive PyScore where
  | none_ : PyScore
  | nan : PyScore
  | inf : PyScore
  | ninf : PyScore
  | fin : ℚ → PyScore
  deriving DecidableEq, Repr

/-- `pd.isnull(score)`: true exactly for `None` and `NaN` (infinities are not
null). -/
def pd_isnull : PyScore → Bool
  | .none_ => true
  | .nan => true
  | .inf => false
  | .ninf => false
  | .fin _ => false

/-- A concrete scalar in a flattened parameter vector. -/
inductive FlatVal where
  | int : Int → FlatVal
  | rat : ℚ → FlatVal
  | str : String → FlatVal
  deriving DecidableEq, Repr

/-- Nested pipeline parameters: component name to parameter name to value. -/
abbrev TunerParams : Type := List (String × List (String × FlatVal))

/-- Look up `params[component][param]`. -/
def tunerLookup (params : TunerParams) (comp param : String) : Option FlatVal :=
  match params.find? (fun e => e.1 == comp) with
  | none => none
  | some (_, entries) =>
    match entries.find? (fun e => e.1 == param) with
    | none => none
    | some (_, v) => some v

/-- Modelled from the spec: the base `Tuner`'s flattening
(`_convert_to_flat_parameters`, in `evalml/tuners/tuner.py`, which is not
among the analysed sources).  The search-space dimension order is fixed at
construction time; flattening reads the value of each `(component, param)`
dimension in that order. -/
def convert_to_flat_parameters (space : List (String × String)) (params : TunerParams) : List FlatVal :=
  space.filterMap (fun cp => tunerLookup params cp.1 cp.2)

/-- Modelled from the spec: the base `Tuner`'s un-flattening
(`_convert_to_pipeline_parameters`): pair the fixed dimension order with the
flat vector to rebuild the nested mapping. -/
def convert_to_pipeline_parameters (space : List (String × String)) (flat : List FlatVal) : TunerParams :=
  (space.zip flat).foldl
    (fun acc cpv =>
      match acc.find? (fun e => e.1 == cpv.1.1) with
      | none => acc ++ [(cpv.1.1, [(cpv.1.2, cpv.2)])]
      | some (c, entries) =>
        acc.map (fun e => if e.1 == c then (c, entries ++ [(cpv.1.2, cpv.2)]) else e))
    []

/-- The external skopt `Optimizer` backend, specified at its interface
boundary: `tellErr obs score` is `some msg` when `opt.tell` raises an
exception whose `str()` is `msg`, and `none` when it succeeds; `askFun` is
the deterministic next point proposed by `opt.ask` given the observations
told so far and the number of asks made so far. -/
structure SKOptBackend where
  tellErr : List FlatVal → PyScore → Option String
  askFun : List (List FlatVal × PyScore) → Nat → List FlatVal

/-- The state of a `SKOptTuner`: the fixed dimension order of its search
space, the observations successfully told to the backend, and the number of
asks made. -/
structure SKOptTunerState where
  searchSpace : List (String × String)
  told : List (List FlatVal × PyScore)
  asks : Nat
  deriving DecidableEq

/-- Outcome of `SKOptTuner.add`: normal return, a raised `ParameterError`
(carrying the message built by the source), or any other exception re-raised
unchanged (carrying its `str()`). -/
inductive AddResult where
  | ok : SKOptTunerState → AddResult
  | parameterError : String → AddResult
  | raised : String → AddResult
  deriving DecidableEq

/-- The exact exception text the source compares against (source line 74):
`'<=' not supported between instances of 'int' and 'NoneType'`. -/
def intNoneTypeMsg : String :=
  "\x27<=\x27 not supported between instances of \x27int\x27 and \x27NoneType\x27"

/-- A rendering of nested parameters, modelling Python's `str()` of the dict
inside the `ParameterError` message. -/
def reprFlatVal : FlatVal → String
  | .int n => toString n
  | .rat q => toString q
  | .str s => s

/-- Render nested tuner parameters to text (model of Python `str(dict)`). -/
def reprTunerParams (params : TunerParams) : String :=
  String.intercalate ", "
    (params.map (fun e =>
      e.1 ++ ": (" ++
        String.intercalate ", " (e.2.map (fun pe => pe.1 ++ ": " ++ reprFlatVal pe.2)) ++ ")"))

/-- The `ParameterError` message built by the source (lines 75-77):
`"Invalid parameters specified to SKOptTuner.add: parameters {} error {}"`
formatted with the pipeline parameters and the exception text.  Note the
format receives the parameters and the error, not the score. -/
def badParamsMsg (params : TunerParams) (e : String) : String :=
  "Invalid parameters specified to SKOptTuner.add: parameters " ++
    reprTunerParams params ++ " error " ++ e

/-- `SKOptTuner.add(pipeline_parameters, score)` (source lines 48-80):
skip null scores; otherwise flatten and `opt.tell`; on an exception whose
text is exactly `intNoneTypeMsg`, raise `ParameterError` with the message
built from the parameters and the exception text; re-raise anything else
unchanged. -/
def SKOptTuner_add (b : SKOptBackend) (t : SKOptTunerState) (pipeline_parameters : TunerParams) (score : PyScore) : AddResult :=
  if pd_isnull score then .ok t
  else
    let flat_parameter_values := convert_to_flat_parameters t.searchSpace pipeline_parameters
    match b.tellErr flat_parameter_values score with
    | none => .ok { t with told := t.told ++ [(flat_parameter_values, score)] }
    | some e =>
      if e = intNoneTypeMsg then .parameterError (badParamsMsg pipeline_parameters e)
      else .raised e

/-- `SKOptTuner.propose()` (source lines 82-93): an empty search space
returns the empty nested mapping without consulting the backend; otherwise
ask the backend for the next flat vector and un-flatten it. -/
def SKOptTuner_propose (b : SKOptBackend) (t : SKOptTunerState) : TunerParams × SKOptTunerState :=
  if t.searchSpace.length = 0 then
    (convert_to_pipeline_parameters t.searchSpace [], t)
  else
    let flat := b.askFun t.told t.asks
    (convert_to_pipeline_parameters t.searchSpace flat, { t with asks := t.asks + 1 })

/-- The sequence of the next `n` proposals from a tuner state. -/
def propose_seq (b : SKOptBackend) (t : SKOptTunerState) : Nat → List TunerParams
  | 0 => []
  | n + 1 =>
    let pt := SKOptTuner_propose b t
    pt.1 :: propose_seq b pt.2 n

/-- The tuner state after an `add` call, when the call returned normally. -/
def state_after_add (b : SKOptBackend) (t : SKOptTunerState) (params : TunerParams) (score : PyScore) : SKOptTunerState :=
  match SKOptTuner_add b t params score with
  | .ok t1 => t1
  | _ => t

/- ===================================================================
   Part 3: the EvalMLAlgorithm batch state machine
   (evalml/automl/automl_algorithm/evalml_algorithm.py)
   =================================================================== -/

/-- Model families (`evalml.model_family.ModelFamily`); only `ensemble` is
distinguished by the algorithm, the rest are representative tags. -/
inductive ModelFamily where
  | linearModel : ModelFamily
  | randomForest : ModelFamily
  | xgboost : ModelFamily
  | extraTrees : ModelFamily
  | catboost : ModelFamily
  | lightgbm : ModelFamily
  | decisionTree : ModelFamily
  | baseline : ModelFamily
  | ensemble : ModelFamily
  deriving DecidableEq, Repr

/-- A concrete pipeline-parameter value. -/
inductive PVal where
  | int : Int → PVal
  | rat : ℚ → PVal
  | str : String → PVal
  | cols : Option (List String) → PVal
  deriving DecidableEq, Repr

/-- Nested pipeline parameters: component name to parameter name to value. -/
abbrev Params : Type := List (String × List (String × PVal))

/-- A component in a pipeline's linearized component graph: its name,
whether its constructor accepts an `n_jobs` keyword (the reflection check in
`_transform_parameters`), and what its `get_names()` returns after fitting
(meaningful for the RF feature-selection components). -/
structure Component where
  name : String
  acceptsNJobs : Bool
  getNames : List String
  deriving DecidableEq, Repr

/-- The pipeline capability set used by the algorithm: `.name`,
`.model_family`, `.parameters`, `.linearized_component_graph` (here
`components`), and the class of its estimator (used by
`_create_long_top_n`). -/
structure Pipeline where
  name : String
  modelFamily : ModelFamily
  parameters : Params
  components : List Component
  estimatorClass : String
  deriving DecidableEq, Repr

/-- `pipeline.new(parameters, random_seed)`: a fresh instance of the same
pipeline with the given parameters; it does not mutate the receiver. -/
def Pipeline.new (p : Pipeline) (parameters : Params) (_random_seed : Int) : Pipeline :=
  { p with parameters := parameters }

/-- `pipeline.get_component(name)` restricted to the component graph;
`none` models the lookup raising. -/
def Pipeline.get_component (p : Pipeline) (nm : String) : Option Component :=
  p.components.find? (fun c => c.name == nm)

/-- One entry of the best-per-model-family table (`_best_pipeline_info`
values): score, pipeline handle, parameters and trained-result id. -/
structure BestInfo where
  mean_cv_score : ℚ
  pipeline : Pipeline
  parameters : Params
  id : Nat
  deriving DecidableEq, Repr

/-- Modelled from the spec: one per-pipeline tuner as used by the algorithm
(`self._tuner_class(...)`, by default the `SKOptTuner` over the external
skopt backend; `get_hyperparameter_ranges` of `evalml/automl/utils.py` is
not among the analysed sources).  Modelled as a deterministic stream of
proposals consumed by a cursor: `propose()` returns the next proposal and
advances the cursor. -/
structure AlgoTuner where
  proposals : List Params
  count : Nat
  deriving DecidableEq, Repr

/-- Dictionary lookup on an insertion-ordered association list. -/
def lookupAssoc {α β : Type} [DecidableEq α] : List (α × β) → α → Option β
  | [], _ => none
  | (k, v) :: rest, a => if k = a then some v else lookupAssoc rest a

/-- Python-dict assignment on an insertion-ordered association list: an
existing key keeps its position, a new key is appended. -/
def updateAssoc {α β : Type} [DecidableEq α] : List (α × β) → α → β → List (α × β)
  | [], a, b => [(a, b)]
  | (k, v) :: rest, a, b =>
    if k = a then (a, b) :: rest else (k, v) :: updateAssoc rest a b

/-- The extra preprocessing components the algorithm asks the pipeline
factory to insert. -/
inductive ExtraComp where
  | rfRegressorSelectFromModel : ExtraComp
  | rfClassifierSelectFromModel : ExtraComp
  | selectColumns : ExtraComp
  deriving DecidableEq, Repr

/-- The external collaborators of the algorithm, specified at their
interface boundary: the pipeline factory `make_pipeline` (curried over the
per-run constants `X`, `y`, `problem_type` and `sampler_name`; takes the
estimator class and extra components), the estimator registry
`get_estimators(problem_type)`, construction of a tuner for a pipeline
(collapsing `get_hyperparameter_ranges` and the tuner class, both external
to the analysed sources), and `_make_stacked_ensemble_pipeline`
(input pipelines, random seed, n_jobs). -/
structure Env where
  make_pipeline : String → List ExtraComp → Pipeline
  get_estimators : List String
  mk_tuner : Pipeline → Int → AlgoTuner
  mk_stacked_ensemble : List Pipeline → Int → Int → Pipeline

/-- Runtime errors of the algorithm model: `indexError` models
`input_pipelines[0]` on an empty list, `typeError` models iterating `None`,
`keyError` models a missing tuner lookup, `componentNotFound` models
`get_component` raising. -/
inductive RunErr where
  | indexError : RunErr
  | typeError : RunErr
  | keyError : RunErr
  | componentNotFound : RunErr
  deriving DecidableEq, Repr

/-- The mutable state of an `EvalMLAlgorithm` instance.  `forwarded` is the
base class's generic results bookkeeping (modelled from the spec as an
append-only log, since `AutoMLAlgorithm.add_result` is not among the
analysed sources); the remaining fields mirror the attributes set in
`__init__`. -/
structure AlgoState where
  batch_number : Nat
  pipeline_number : Nat
  best_pipeline_info : List (ModelFamily × BestInfo)
  selected_cols : Option (List String)
  top_n_pipelines : Option (List Pipeline)
  tuners : List (String × AlgoTuner)
  forwarded : List (Option ℚ × String)
  n_jobs : Int
  random_seed : Int
  text_in_ensembling : Bool
  regression : Bool
  deriving DecidableEq, Repr

/-- `_naive_estimators` (source lines 128-146). -/
def naive_estimators (st : AlgoState) : List String :=
  if st.regression then ["Linear Regressor", "Random Forest Regressor"]
  else ["Logistic Regression Classifier", "Random Forest Classifier"]

/-- `_create_naive_pipelines` (source lines 148-159). -/
def create_naive_pipelines (env : Env) (st : AlgoState) : List Pipeline :=
  (naive_estimators st).map (fun e => env.make_pipeline e [])

/-- `_create_naive_pipelines_with_feature_selection` (source lines 161-179). -/
def create_naive_pipelines_with_feature_selection (env : Env) (st : AlgoState) : List Pipeline :=
  let feature_selector :=
    if st.regression then ExtraComp.rfRegressorSelectFromModel
    else ExtraComp.rfClassifierSelectFromModel
  (naive_estimators st).map (fun e => env.make_pipeline e [feature_selector])

/-- `_create_tuner` (source lines 181-187): store a fresh tuner for the
pipeline under its name. -/
def create_tuner (env : Env) (st : AlgoState) (p : Pipeline) : AlgoState :=
  { st with tuners := updateAssoc st.tuners p.name (env.mk_tuner p st.random_seed) }

/-- `_transform_parameters` (source lines 357-367): for every component of
the linearized graph take its proposed parameters (empty when absent) and
force-set `n_jobs` when the component's constructor accepts it. -/
def transform_parameters (st : AlgoState) (p : Pipeline) (proposed_parameters : Params) : Params :=
  p.components.map (fun c =>
    let component_parameters := (lookupAssoc proposed_parameters c.name).getD []
    let component_parameters :=
      if c.acceptsNJobs then updateAssoc component_parameters "n_jobs" (PVal.int st.n_jobs)
      else component_parameters
    (c.name, component_parameters))

/-- `_create_fast_final` (source lines 189-218): one pipeline per
non-naive estimator, augmented with `SelectColumns`, re-instantiated with
the `Select Columns Transformer` columns bound to `self._selected_cols`,
and a tuner created for each. -/
def create_fast_final (env : Env) (st : AlgoState) : List Pipeline × AlgoState :=
  let estimators := env.get_estimators.filter (fun e => !(naive_estimators st).contains e)
  let pipelines := estimators.map (fun e => env.make_pipeline e [ExtraComp.selectColumns])
  let pipelines := pipelines.map (fun p =>
    p.new [("Select Columns Transformer", [("columns", PVal.cols st.selected_cols)])] st.random_seed)
  (pipelines, pipelines.foldl (fun s p => create_tuner env s p) st)

/-- `_create_ensemble` (source lines 220-236): re-instantiate the best
pipeline of every recorded family with its best-known (transformed)
parameters, then build one stacked ensemble.  `input_pipelines[0]` raises
`IndexError` when the best-info table is empty. -/
def create_ensemble (env : Env) (st : AlgoState) : Except RunErr (List Pipeline) :=
  let input_pipelines := st.best_pipeline_info.map (fun fd =>
    fd.2.pipeline.new (transform_parameters st fd.2.pipeline fd.2.parameters) st.random_seed)
  match input_pipelines with
  | [] => .error .indexError
  | _ :: _ =>
    let n_jobs_ensemble := if st.text_in_ensembling then 1 else st.n_jobs
    .ok [env.mk_stacked_ensemble input_pipelines st.random_seed n_jobs_ensemble]

/-- The body shared by the tuner-driven batches (source lines 263-270 and
297-308): propose from the pipeline's tuner (raising `KeyError` when
absent), transform the proposal, re-bind the `Select Columns Transformer`
columns to the stored selected columns, and instantiate the pipeline. -/
def propose_and_make (st : AlgoState) (p : Pipeline) : Except RunErr (Pipeline × AlgoState) :=
  match lookupAssoc st.tuners p.name with
  | none => .error .keyError
  | some t =>
    let proposed_parameters := t.proposals.getD t.count []
    let st1 := { st with tuners := updateAssoc st.tuners p.name { t with count := t.count + 1 } }
    let parameters := transform_parameters st1 p proposed_parameters
    let parameters := updateAssoc parameters "Select Columns Transformer"
      [("columns", PVal.cols st1.selected_cols)]
    .ok (p.new parameters st1.random_seed, st1)

/-- One inner pass (`for pipeline in ...`) of a tuner-driven batch, without
lazy tuner creation (the tail batch, source lines 295-308). -/
def tuner_round : AlgoState → List Pipeline → Except RunErr (List Pipeline × AlgoState)
  | st, [] => .ok ([], st)
  | st, p :: rest => do
    let (q, st1) ← propose_and_make st p
    let (qs, st2) ← tuner_round st1 rest
    .ok (q :: qs, st2)

/-- `for _ in range(n)` around `tuner_round`. -/
def tuner_rounds (ps : List Pipeline) : AlgoState → Nat → Except RunErr (List Pipeline × AlgoState)
  | st, 0 => .ok ([], st)
  | st, n + 1 => do
    let (b1, st1) ← tuner_round st ps
    let (bs, st2) ← tuner_rounds ps st1 n
    .ok (b1 ++ bs, st2)

/-- One inner pass of the batch-4 loop (source lines 259-270): same as
`tuner_round` but a missing tuner is created lazily first. -/
def long_round (env : Env) : AlgoState → List Pipeline → Except RunErr (List Pipeline × AlgoState)
  | st, [] => .ok ([], st)
  | st, p :: rest => do
    let st0 := if (lookupAssoc st.tuners p.name).isSome then st else create_tuner env st p
    let (q, st1) ← propose_and_make st0 p
    let (qs, st2) ← long_round env st1 rest
    .ok (q :: qs, st2)

/-- `for _ in range(n)` around `long_round`. -/
def long_rounds (env : Env) (ps : List Pipeline) : AlgoState → Nat → Except RunErr (List Pipeline × AlgoState)
  | st, 0 => .ok ([], st)
  | st, n + 1 => do
    let (b1, st1) ← long_round env st ps
    let (bs, st2) ← long_rounds env ps st1 n
    .ok (b1 ++ bs, st2)

/-- `_create_long_top_n` (source lines 238-272): sort the recorded best
entries by score (Python's stable sort), keep the estimator classes of the
first `n`, build one `SelectColumns`-augmented pipeline per kept estimator,
fix these as `_top_n_pipelines`, then sample 50 rounds of proposals. -/
def create_long_top_n (env : Env) (st : AlgoState) (n : Nat) : Except RunErr (List Pipeline × AlgoState) :=
  let estimators := st.best_pipeline_info.map (fun fd => (fd.2.pipeline.estimatorClass, fd.2.mean_cv_score))
  let estimators := List.insertionSort (fun a b => a.2 ≤ b.2) estimators
  let estimators := (estimators.take n).map Prod.fst
  let pipelines := estimators.map (fun e => env.make_pipeline e [ExtraComp.selectColumns])
  let st := { st with top_n_pipelines := some pipelines }
  long_rounds env pipelines st 50

/-- The dispatch on `batch_number` inside `next_batch` (source lines
281-308), before the counter updates. -/
def generate_batch (env : Env) (st : AlgoState) : Except RunErr (List Pipeline × AlgoState) :=
  if st.batch_number = 0 then .ok (create_naive_pipelines env st, st)
  else if st.batch_number = 1 then .ok (create_naive_pipelines_with_feature_selection env st, st)
  else if st.batch_number = 2 then .ok (create_fast_final env st)
  else if st.batch_number = 3 then do
    let b ← create_ensemble env st
    .ok (b, st)
  else if st.batch_number = 4 then create_long_top_n env st 3
  else if st.batch_number % 2 ≠ 0 then do
    let b ← create_ensemble env st
    .ok (b, st)
  else
    match st.top_n_pipelines with
    | none => .error .typeError
    | some tops => tuner_rounds tops st 10

/-- `next_batch` (source lines 274-312): generate the batch for the current
`batch_number`, then advance `pipeline_number` by the batch size and
`batch_number` by one. -/
def next_batch (env : Env) (st : AlgoState) : Except RunErr (List Pipeline × AlgoState) := do
  let (nb, st1) ← generate_batch env st
  .ok (nb, { st1 with
    pipeline_number := st1.pipeline_number + nb.length,
    batch_number := st1.batch_number + 1 })

/-- Calling `next_batch` `n` times, collecting the returned batches. -/
def run_next_batches (env : Env) : AlgoState → Nat → Except RunErr (List (List Pipeline) × AlgoState)
  | st, 0 => .ok ([], st)
  | st, n + 1 => do
    let (b, st1) ← next_batch env st
    let (bs, st2) ← run_next_batches env st1 n
    .ok (b :: bs, st2)

/-- Modelled from the spec: `super().add_result(...)`, the base class's
generic "all evaluated results" bookkeeping (`AutoMLAlgorithm.add_result`
is not among the analysed sources).  Modelled as appending the result to a
log; per the specification's state model it touches neither counter. -/
def base_add_result (st : AlgoState) (score : Option ℚ) (p : Pipeline) (_result_id : Nat) : AlgoState :=
  { st with forwarded := st.forwarded ++ [(score, p.name)] }

/-- The forwarding step of `add_result` (source lines 322-326): forward to
the base class only for non-ensemble pipelines and only when
`batch_number >= 3`. -/
def forward_step (st : AlgoState) (score : Option ℚ) (p : Pipeline) (result_id : Nat) : AlgoState :=
  if p.modelFamily ≠ ModelFamily.ensemble ∧ 3 ≤ st.batch_number then
    base_add_result st score p result_id
  else st

/-- The name of the RF feature-selection component read by `add_result`
(source lines 329-336). -/
def rf_selector_name (st : AlgoState) : String :=
  if st.regression then "RF Regressor Select From Model" else "RF Classifier Select From Model"

/-- The selected-columns step of `add_result` (source lines 328-336): when
`batch_number == 2` and no columns are recorded yet, read them from the
pipeline's RF feature-selection component via `get_names()`. -/
def selected_cols_step (st : AlgoState) (p : Pipeline) : Except RunErr AlgoState :=
  if st.batch_number = 2 ∧ st.selected_cols = none then
    match p.get_component (rf_selector_name st) with
    | none => .error .componentNotFound
    | some comp => .ok { st with selected_cols := some comp.getNames }
  else .ok st

/-- `score < current_best` where a missing entry defaults to `np.inf`
(source lines 338-343). -/
def score_beats_current (s : ℚ) : Option ℚ → Bool
  | none => true
  | some c => decide (s < c)

/-- The best-info update of `add_result` (source lines 338-355): when the
score is non-null, strictly beats the family's current best (infinite when
absent) and the pipeline is not an ensemble, record score, pipeline,
parameters and trained-result id for the family. -/
def best_info_update (tbl : List (ModelFamily × BestInfo)) (score : Option ℚ) (p : Pipeline) (result_id : Nat) : List (ModelFamily × BestInfo) :=
  let current_best_score := (lookupAssoc tbl p.modelFamily).map BestInfo.mean_cv_score
  match score with
  | none => tbl
  | some s =>
    if score_beats_current s current_best_score = true ∧ p.modelFamily ≠ ModelFamily.ensemble then
      updateAssoc tbl p.modelFamily ⟨s, p, p.parameters, result_id⟩
    else tbl

/-- `add_result(score_to_minimize, pipeline, trained_pipeline_results)`
(source lines 314-355); `result_id` is `trained_pipeline_results["id"]`. -/
def add_result (st : AlgoState) (score_to_minimize : Option ℚ) (pipeline : Pipeline) (result_id : Nat) : Except RunErr AlgoState := do
  let st1 := forward_step st score_to_minimize pipeline result_id
  let st2 ← selected_cols_step st1 pipeline
  .ok { st2 with best_pipeline_info := best_info_update st2.best_pipeline_info score_to_minimize pipeline result_id }

/-- A sequence of `add_result` calls. -/
structure ResultCall where
  score : Option ℚ
  pipeline : Pipeline
  rid : Nat
  deriving DecidableEq, Repr

/-- Fold a list of results through `add_result`. -/
def run_add_results : AlgoState → List ResultCall → Except RunErr AlgoState
  | st, [] => .ok st
  | st, c :: cs => do
    let st1 ← add_result st c.score c.pipeline c.rid
    run_add_results st1 cs

/-- The non-null scores of the non-ensemble results of family `f` in a call
sequence, in arrival order. -/
def familyScores (f : ModelFamily) (cs : List ResultCall) : List ℚ :=
  cs.filterMap (fun c =>
    if c.pipeline.modelFamily = f ∧ f ≠ ModelFamily.ensemble then c.score else none)

/- ===================================================================
   Part 3b: auxiliary definitions for the theorems and their witnesses
   =================================================================== -/

/-- Running minimum of a list of scores, seeded with an optional current
best. -/
def runningMin : Option ℚ → List ℚ → Option ℚ
  | acc, [] => acc
  | none, s :: rest => runningMin (some s) rest
  | some a, s :: rest => runningMin (some (min a s)) rest


/-- Well-formed `pipeline_params`: `None`, or a dict whose per-component
values are dicts containing no skopt.Space leaves. -/
def GoodPipelineArg (a : TopArg) : Prop :=
  a = TopArg.pyNone ∨ ∃ es, a = TopArg.dict es ∧
    ∀ cv ∈ es, ∃ entries, cv.2 = CompVal.dict entries ∧ ∀ e ∈ entries, HPVal.isSpace e.2 = false

/-- Well-formed `custom_hyperparameters`: `None`, or a dict whose
per-component values are dicts all of whose leaves are skopt.Space
objects. -/
def GoodCustomArg (a : TopArg) : Prop :=
  a = TopArg.pyNone ∨ ∃ es, a = TopArg.dict es ∧
    ∀ cv ∈ es, ∃ entries, cv.2 = CompVal.dict entries ∧ ∀ e ∈ entries, HPVal.isSpace e.2 = true

/-- A concrete pipeline used by the witness theorems. -/
def pW : Pipeline :=
  { name := "LR pipeline", modelFamily := ModelFamily.linearModel, parameters := [],
    components := [], estimatorClass := "Logistic Regression Classifier" }

/-- A concrete ensemble pipeline used by the witness theorems. -/
def pEnsW : Pipeline :=
  { pW with name := "Stacked Ensemble", modelFamily := ModelFamily.ensemble }

/-- A concrete environment used by the witness theorems. -/
def envW : Env :=
  { make_pipeline := fun e _ => { pW with name := e, estimatorClass := e },
    get_estimators := ["Logistic Regression Classifier", "Random Forest Classifier", "Extra Trees Classifier"],
    mk_tuner := fun _ _ => { proposals := [], count := 0 },
    mk_stacked_ensemble := fun _ _ _ => pEnsW }

/-- A concrete freshly-constructed algorithm state used by the witness
theorems. -/
def stW : AlgoState :=
  { batch_number := 0, pipeline_number := 0, best_pipeline_info := [], selected_cols := none,
    top_n_pipelines := none, tuners := [], forwarded := [], n_jobs := -1, random_seed := 0,
    text_in_ensembling := false, regression := false }

/-- A concrete best-info record used by the witness theorems. -/
def bestW : BestInfo := { mean_cv_score := 2, pipeline := pW, parameters := [], id := 1 }

/-- A concrete result sequence: a score of 2 then a worse score of 3 for
the same family. -/
def c1calls : List ResultCall := [⟨some 2, pW, 1⟩, ⟨some 3, pW, 2⟩]

/-- The state reached by `c1calls` from `stW`. -/
def stC1after : AlgoState :=
  { stW with best_pipeline_info :=
      [(ModelFamily.linearModel,
        { mean_cv_score := 2, pipeline := pW, parameters := pW.parameters, id := 1 })] }

/-- A concrete fitted RF feature-selection component. -/
def compX : Component :=
  { name := "RF Regressor Select From Model", acceptsNJobs := false, getNames := ["a", "b"] }

/-- A concrete feature-selection pipeline containing `compX`. -/
def pX : Pipeline :=
  { name := "RF pipeline", modelFamily := ModelFamily.randomForest, parameters := [],
    components := [compX], estimatorClass := "Random Forest Regressor" }

/-- A regression state awaiting the feature-selection result. -/
def stC2 : AlgoState := { stW with batch_number := 2, regression := true }

/-- The state after recording the feature-selection result. -/
def stC2after : AlgoState :=
  { stC2 with
    selected_cols := some ["a", "b"],
    best_pipeline_info :=
      [(ModelFamily.randomForest,
        { mean_cv_score := 1, pipeline := pX, parameters := pX.parameters, id := 7 })] }

/-- A state at batch counter 5, where forwarding is active. -/
def stC3 : AlgoState := { stW with batch_number := 5 }

/-- The state after a forwarded result. -/
def stC3after : AlgoState := { stC3 with forwarded := [(none, pW.name)] }

/-- A state at batch counter 3 with one recorded family. -/
def stC7 : AlgoState :=
  { stW with batch_number := 3, best_pipeline_info := [(ModelFamily.linearModel, bestW)] }

/-- The state after one ensemble batch from `stC7`. -/
def stC7after : AlgoState :=
  { stC7 with pipeline_number := stC7.pipeline_number + 1, batch_number := stC7.batch_number + 1 }

/-- A state at odd batch counter 5 with one recorded family. -/
def stC8odd : AlgoState :=
  { stW with batch_number := 5, best_pipeline_info := [(ModelFamily.linearModel, bestW)] }

/-- A state at even batch counter 6 with a fixed top-n set and its tuner. -/
def stC8even : AlgoState :=
  { stW with
    batch_number := 6,
    top_n_pipelines := some [pW],
    tuners := [(pW.name, { proposals := [], count := 0 })] }

/-- The pipeline materialized by every tail-batch proposal from `stC8even`. -/
def qC8 : Pipeline :=
  { pW with parameters := [("Select Columns Transformer", [("columns", PVal.cols none)])] }

/-- The state after one tail batch from `stC8even`. -/
def stC8evenAfter : AlgoState :=
  { stC8even with
    pipeline_number := stC8even.pipeline_number + 10,
    batch_number := 7,
    tuners := [(pW.name, { proposals := [], count := 10 })] }

/-- A state at batch counter 3 with an empty best-pipeline table. -/
def stC9empty : AlgoState := { stW with batch_number := 3 }

/-- A tuner backend that rejects every observation with the int-None
comparison error. -/
def bC5 : SKOptBackend :=
  { tellErr := fun _ _ => some intNoneTypeMsg, askFun := fun _ _ => [] }

/-- A one-dimensional tuner state. -/
def tC5 : SKOptTunerState := { searchSpace := [("C", "x")], told := [], asks := 0 }

/-- Concrete nested parameters for the one-dimensional space. -/
def psC5 : TunerParams := [("C", [("x", FlatVal.int 3)])]

/-- A tuner backend that accepts every observation and whose proposals
depend on the number of observations told. -/
def bC6 : SKOptBackend :=
  { tellErr := fun _ _ => none, askFun := fun obs _ => [FlatVal.int (Int.ofNat obs.length)] }

/-- A one-dimensional tuner state. -/
def tC6 : SKOptTunerState := { searchSpace := [("C", "x")], told := [], asks := 0 }

/-- Concrete nested parameters for the one-dimensional space. -/
def psC6 : TunerParams := [("C", [("x", FlatVal.int 3)])]

/- ===================================================================
   Part 4: helper lemmas
   =================================================================== -/

theorem except_bind_ok {ε α β : Type} {x : Except ε α} {f : α → Except ε β} {c : β}
    (h : (x >>= f) = .ok c) : ∃ a, x = .ok a ∧ f a = .ok c := by
  cases x with
  | error e => exact absurd h (by simp [Bind.bind, Except.bind])
  | ok a => exact ⟨a, rfl, by simpa [Bind.bind, Except.bind] using h⟩

theorem lookupAssoc_updateAssoc_self {α β : Type} [DecidableEq α] (l : List (α × β)) (a : α) (b : β) :
    lookupAssoc (updateAssoc l a b) a = some b := by
  induction l with
  | nil => simp [updateAssoc, lookupAssoc]
  | cons kv rest ih =>
    obtain ⟨k, v⟩ := kv
    by_cases h : k = a
    · simp [updateAssoc, lookupAssoc, h]
    · simp [updateAssoc, lookupAssoc, h, ih]


theorem lookupAssoc_updateAssoc_ne {α β : Type} [DecidableEq α] (l : List (α × β)) (a a' : α) (b : β)
    (h : a' ≠ a) : lookupAssoc (updateAssoc l a b) a' = lookupAssoc l a' := by
  induction l with
  | nil =>
    simp only [updateAssoc, lookupAssoc]
    rw [if_neg (fun hh => h hh.symm)]
  | cons kv rest ih =>
    obtain ⟨k, v⟩ := kv
    by_cases hk : k = a
    · subst hk
      simp only [updateAssoc, if_pos rfl, lookupAssoc]
      rw [if_neg (fun hh => h hh.symm), if_neg (fun hh => h hh.symm)]
    · by_cases hk' : k = a'
      · subst hk'
        have hu : updateAssoc ((k, v) :: rest) a b = (k, v) :: updateAssoc rest a b := by
          simp only [updateAssoc]
          rw [if_neg hk]
        rw [hu]
        simp [lookupAssoc]
      · simp [updateAssoc, lookupAssoc, hk, hk', ih]

theorem forward_step_pipeline_number (st : AlgoState) (s : Option ℚ) (p : Pipeline) (rid : Nat) :
    (forward_step st s p rid).pipeline_number = st.pipeline_number := by
  unfold forward_step base_add_result
  split <;> rfl

theorem forward_step_batch_number (st : AlgoState) (s : Option ℚ) (p : Pipeline) (rid : Nat) :
    (forward_step st s p rid).batch_number = st.batch_number := by
  unfold forward_step base_add_result
  split <;> rfl

theorem forward_step_best (st : AlgoState) (s : Option ℚ) (p : Pipeline) (rid : Nat) :
    (forward_step st s p rid).best_pipeline_info = st.best_pipeline_info := by
  unfold forward_step base_add_result
  split <;> rfl

theorem forward_step_selected_cols (st : AlgoState) (s : Option ℚ) (p : Pipeline) (rid : Nat) :
    (forward_step st s p rid).selected_cols = st.selected_cols := by
  unfold forward_step base_add_result
  split <;> rfl

theorem forward_step_rf_name (st : AlgoState) (s : Option ℚ) (p : Pipeline) (rid : Nat) :
    rf_selector_name (forward_step st s p rid) = rf_selector_name st := by
  unfold forward_step base_add_result rf_selector_name
  split <;> rfl

theorem forward_step_forwarded (st : AlgoState) (s : Option ℚ) (p : Pipeline) (rid : Nat) :
    (forward_step st s p rid).forwarded =
      (if p.modelFamily ≠ ModelFamily.ensemble ∧ 3 ≤ st.batch_number
        then st.forwarded ++ [(s, p.name)] else st.forwarded) := by
  unfold forward_step base_add_result
  split <;> rfl

/-- Success of `selected_cols_step` determines the new state: only
`selected_cols` can change, and it changes exactly under the
batch-2-and-unset condition (in which case the component lookup succeeded). -/
theorem selected_cols_step_ok {st st2 : AlgoState} {p : Pipeline}
    (h : selected_cols_step st p = .ok st2) :
    st2.pipeline_number = st.pipeline_number ∧
    st2.batch_number = st.batch_number ∧
    st2.best_pipeline_info = st.best_pipeline_info ∧
    st2.forwarded = st.forwarded ∧
    st2.selected_cols = (if st.batch_number = 2 ∧ st.selected_cols = none
      then (p.get_component (rf_selector_name st)).map Component.getNames
      else st.selected_cols) ∧
    (st.batch_number = 2 → st.selected_cols = none →
      (p.get_component (rf_selector_name st)).isSome = true) := by
  unfold selected_cols_step at h
  split at h
  · rename_i hcond
    cases hgc : p.get_component (rf_selector_name st) with
    | none =>
      rw [hgc] at h
      cases h
    | some comp =>
      rw [hgc] at h
      cases h
      simp [hcond, hgc]
  · rename_i hcond
    cases h
    refine ⟨rfl, rfl, rfl, rfl, ?_, ?_⟩
    · rw [if_neg hcond]
    · intro h1 h2
      exact absurd ⟨h1, h2⟩ hcond

/-- Success of `add_result` determines every field of the new state from the
old one: counters are untouched, the best table is updated by
`best_info_update`, the forwarding log grows exactly under the
non-ensemble-and-batch-at-least-3 condition, and the selected columns are
written exactly under the batch-2-and-unset condition (in which case the RF
feature-selection component must have been found). -/
theorem add_result_ok_spec {st st' : AlgoState} {s : Option ℚ} {p : Pipeline} {rid : Nat}
    (h : add_result st s p rid = .ok st') :
    st'.pipeline_number = st.pipeline_number ∧
    st'.batch_number = st.batch_number ∧
    st'.best_pipeline_info = best_info_update st.best_pipeline_info s p rid ∧
    st'.forwarded = (if p.modelFamily ≠ ModelFamily.ensemble ∧ 3 ≤ st.batch_number
      then st.forwarded ++ [(s, p.name)] else st.forwarded) ∧
    st'.selected_cols = (if st.batch_number = 2 ∧ st.selected_cols = none
      then (p.get_component (rf_selector_name st)).map Component.getNames
      else st.selected_cols) ∧
    (st.batch_number = 2 → st.selected_cols = none →
      (p.get_component (rf_selector_name st)).isSome = true) := by
  unfold add_result at h
  obtain ⟨st2, h2, h3⟩ := except_bind_ok h
  have h3' : st' = { st2 with
      best_pipeline_info := best_info_update st2.best_pipeline_info s p rid } := by
    cases h3
    rfl
  obtain ⟨hpn, hbn, hbest, hfwd, hsel, hcomp⟩ := selected_cols_step_ok h2
  subst h3'
  refine ⟨?_, ?_, ?_, ?_, ?_, ?_⟩
  · show st2.pipeline_number = st.pipeline_number
    rw [hpn, forward_step_pipeline_number]
  · show st2.batch_number = st.batch_number
    rw [hbn, forward_step_batch_number]
  · show best_info_update st2.best_pipeline_info s p rid
      = best_info_update st.best_pipeline_info s p rid
    rw [hbest, forward_step_best]
  · show st2.forwarded = _
    rw [hfwd, forward_step_forwarded]
  · show st2.selected_cols = _
    rw [hsel, forward_step_batch_number, forward_step_selected_cols, forward_step_rf_name]
  · intro h1 h2'
    have := hcomp (by rw [forward_step_batch_number]; exact h1)
      (by rw [forward_step_selected_cols]; exact h2')
    rw [forward_step_rf_name] at this
    exact this

theorem runningMin_some (a : ℚ) (l : List ℚ) : runningMin (some a) l = some (l.foldl min a) := by
  induction l generalizing a with
  | nil => rfl
  | cons s rest ih => simp [runningMin, List.foldl, ih]

theorem runningMin_none_eq_min? (l : List ℚ) : runningMin none l = l.min? := by
  cases l with
  | nil => rfl
  | cons a rest => simp [runningMin, runningMin_some, List.min?]

theorem best_info_update_none (tbl : List (ModelFamily × BestInfo)) (p : Pipeline) (rid : Nat) :
    best_info_update tbl none p rid = tbl := rfl

theorem best_info_update_some_pos (tbl : List (ModelFamily × BestInfo)) (s : ℚ) (p : Pipeline) (rid : Nat)
    (h : score_beats_current s ((lookupAssoc tbl p.modelFamily).map BestInfo.mean_cv_score) = true)
    (h2 : p.modelFamily ≠ ModelFamily.ensemble) :
    best_info_update tbl (some s) p rid
      = updateAssoc tbl p.modelFamily ⟨s, p, p.parameters, rid⟩ := by
  show (if score_beats_current s ((lookupAssoc tbl p.modelFamily).map BestInfo.mean_cv_score) = true
          ∧ p.modelFamily ≠ ModelFamily.ensemble
        then updateAssoc tbl p.modelFamily ⟨s, p, p.parameters, rid⟩ else tbl) = _
  rw [if_pos ⟨h, h2⟩]

theorem best_info_update_some_neg (tbl : List (ModelFamily × BestInfo)) (s : ℚ) (p : Pipeline) (rid : Nat)
    (h : ¬(score_beats_current s ((lookupAssoc tbl p.modelFamily).map BestInfo.mean_cv_score) = true
          ∧ p.modelFamily ≠ ModelFamily.ensemble)) :
    best_info_update tbl (some s) p rid = tbl := by
  show (if score_beats_current s ((lookupAssoc tbl p.modelFamily).map BestInfo.mean_cv_score) = true
          ∧ p.modelFamily ≠ ModelFamily.ensemble
        then updateAssoc tbl p.modelFamily ⟨s, p, p.parameters, rid⟩ else tbl) = _
  rw [if_neg h]

/-- How one `best_info_update` changes the recorded score of family `f`:
a null score or a result of a different (or ensemble) family leaves it
unchanged, and a non-null score of a non-ensemble family `f` replaces it by
the minimum of the old score and the new one. -/
theorem best_info_update_lookup_step (tbl : List (ModelFamily × BestInfo)) (sc : Option ℚ)
    (p : Pipeline) (rid : Nat) (f : ModelFamily) :
    (lookupAssoc (best_info_update tbl sc p rid) f).map BestInfo.mean_cv_score =
      (match (if p.modelFamily = f ∧ f ≠ ModelFamily.ensemble then sc else none) with
       | none => (lookupAssoc tbl f).map BestInfo.mean_cv_score
       | some s =>
         match (lookupAssoc tbl f).map BestInfo.mean_cv_score with
         | none => some s
         | some a => some (min a s)) := by
  cases sc with
  | none =>
    have h2 : (if p.modelFamily = f ∧ f ≠ ModelFamily.ensemble then (none : Option ℚ) else none) = none := by
      split <;> rfl
    rw [best_info_update_none, h2]
  | some s =>
    by_cases hcond : p.modelFamily = f ∧ f ≠ ModelFamily.ensemble
    · obtain ⟨hpf, hfe⟩ := hcond
      rw [if_pos ⟨hpf, hfe⟩]
      cases hcur : lookupAssoc tbl f with
      | none =>
        have hbeat : score_beats_current s ((lookupAssoc tbl p.modelFamily).map BestInfo.mean_cv_score) = true := by
          rw [hpf, hcur]
          rfl
        rw [best_info_update_some_pos tbl s p rid hbeat (hpf ▸ hfe), hpf,
          lookupAssoc_updateAssoc_self]
        rfl
      | some b =>
        by_cases hlt : s < b.mean_cv_score
        · have hbeat : score_beats_current s ((lookupAssoc tbl p.modelFamily).map BestInfo.mean_cv_score) = true := by
            rw [hpf, hcur]
            simp [score_beats_current, hlt]
          rw [best_info_update_some_pos tbl s p rid hbeat (hpf ▸ hfe), hpf,
            lookupAssoc_updateAssoc_self]
          simp [min_eq_right (le_of_lt hlt)]
        · have hbeat : ¬(score_beats_current s ((lookupAssoc tbl p.modelFamily).map BestInfo.mean_cv_score) = true
              ∧ p.modelFamily ≠ ModelFamily.ensemble) := by
            rw [hpf, hcur]
            simp [score_beats_current, hlt]
          rw [best_info_update_some_neg tbl s p rid hbeat, hcur]
          simp [min_eq_left (le_of_not_lt hlt)]
    · rw [if_neg hcond]
      by_cases hpf : p.modelFamily = f
      · have hfe : f = ModelFamily.ensemble := by
          by_contra hne
          exact hcond ⟨hpf, hne⟩
        have hno : ¬(score_beats_current s ((lookupAssoc tbl p.modelFamily).map BestInfo.mean_cv_score) = true
            ∧ p.modelFamily ≠ ModelFamily.ensemble) := by
          rw [hpf, hfe]
          simp
        rw [best_info_update_some_neg tbl s p rid hno]
      · by_cases hbeat : score_beats_current s ((lookupAssoc tbl p.modelFamily).map BestInfo.mean_cv_score) = true
          ∧ p.modelFamily ≠ ModelFamily.ensemble
        · rw [best_info_update_some_pos tbl s p rid hbeat.1 hbeat.2,
            lookupAssoc_updateAssoc_ne _ _ _ _ (fun hh => hpf hh.symm)]
        · rw [best_info_update_some_neg tbl s p rid hbeat]

/-- The recorded score of every family after a run of `add_result` calls is
the running minimum of its prior value and the incoming non-null
non-ensemble scores of that family. -/
theorem run_add_results_min (cs : List ResultCall) : ∀ st st', run_add_results st cs = .ok st' →
    ∀ f, (lookupAssoc st'.best_pipeline_info f).map BestInfo.mean_cv_score
      = runningMin ((lookupAssoc st.best_pipeline_info f).map BestInfo.mean_cv_score) (familyScores f cs) := by
  induction cs with
  | nil =>
    intro st st' h f
    cases h
    simp [familyScores, runningMin]
  | cons c cs ih =>
    intro st st' h f
    unfold run_add_results at h
    obtain ⟨st1, h1, hrest⟩ := except_bind_ok h
    have hbest := (add_result_ok_spec h1).2.2.1
    have step := ih st1 st' hrest f
    rw [step, hbest, best_info_update_lookup_step]
    cases hv : (if c.pipeline.modelFamily = f ∧ f ≠ ModelFamily.ensemble then c.score else none) with
    | none =>
      have hfs : familyScores f (c :: cs) = familyScores f cs := by
        unfold familyScores
        rw [List.filterMap_cons, hv]
      rw [hfs]
    | some s =>
      have hfs : familyScores f (c :: cs) = s :: familyScores f cs := by
        unfold familyScores
        rw [List.filterMap_cons, hv]
      rw [hfs]
      cases hcur : (lookupAssoc st.best_pipeline_info f).map BestInfo.mean_cv_score with
      | none => rfl
      | some a => rfl

theorem create_tuner_shape (env : Env) (st : AlgoState) (p : Pipeline) :
    ∃ T, create_tuner env st p = { st with tuners := T } :=
  ⟨_, rfl⟩

theorem foldl_create_tuner_shape (env : Env) (l : List Pipeline) : ∀ st : AlgoState,
    ∃ T, l.foldl (fun s p => create_tuner env s p) st = { st with tuners := T } := by
  induction l with
  | nil =>
    intro st
    exact ⟨st.tuners, rfl⟩
  | cons p l ih =>
    intro st
    obtain ⟨T, hT⟩ := ih (create_tuner env st p)
    refine ⟨T, ?_⟩
    rw [List.foldl_cons, hT]
    rfl

theorem create_fast_final_shape (env : Env) (st : AlgoState) :
    ∃ T, (create_fast_final env st).2 = { st with tuners := T } := by
  unfold create_fast_final
  exact foldl_create_tuner_shape env _ st

/-- Success of `propose_and_make` changes only the tuner table and returns a
pipeline whose `Select Columns Transformer` parameter is bound to the stored
selected columns. -/
theorem propose_and_make_ok {st : AlgoState} {p q : Pipeline} {st1 : AlgoState}
    (h : propose_and_make st p = .ok (q, st1)) :
    (∃ T, st1 = { st with tuners := T }) ∧
    lookupAssoc q.parameters "Select Columns Transformer"
      = some [("columns", PVal.cols st.selected_cols)] := by
  unfold propose_and_make at h
  cases hl : lookupAssoc st.tuners p.name with
  | none =>
    rw [hl] at h
    cases h
  | some t =>
    rw [hl] at h
    cases h
    constructor
    · exact ⟨_, rfl⟩
    · show lookupAssoc (updateAssoc _ "Select Columns Transformer" _) _ = _
      rw [lookupAssoc_updateAssoc_self]

/-- Success of `tuner_round`: only the tuner table changes, one pipeline per
input is produced, and every produced pipeline has its column selection
bound to the stored selected columns. -/
theorem tuner_round_ok : ∀ (tops : List Pipeline) (st : AlgoState) {b : List Pipeline} {st' : AlgoState},
    tuner_round st tops = .ok (b, st') →
    (∃ T, st' = { st with tuners := T }) ∧ b.length = tops.length ∧
    (∀ q ∈ b, lookupAssoc q.parameters "Select Columns Transformer"
      = some [("columns", PVal.cols st.selected_cols)]) := by
  intro tops
  induction tops with
  | nil =>
    intro st b st' h
    cases h
    refine ⟨⟨st.tuners, rfl⟩, rfl, ?_⟩
    intro q hq
    cases hq
  | cons p rest ih =>
    intro st b st' h
    unfold tuner_round at h
    obtain ⟨a1, ha1, h2⟩ := except_bind_ok h
    obtain ⟨q, st1⟩ := a1
    obtain ⟨a2, ha2, h3⟩ := except_bind_ok h2
    obtain ⟨qs, st2⟩ := a2
    cases h3
    obtain ⟨⟨T1, hT1⟩, hq⟩ := propose_and_make_ok ha1
    subst hT1
    obtain ⟨⟨T2, hT2⟩, hlen, hall⟩ := ih _ ha2
    refine ⟨⟨T2, by rw [hT2]⟩, by simp [hlen], ?_⟩
    intro x hx
    rcases List.mem_cons.mp hx with hx | hx
    · subst hx
      exact hq
    · exact hall x hx

/-- Success of `tuner_rounds` over `n` rounds: only the tuner table changes,
`n` pipelines per input are produced, and every produced pipeline has its
column selection bound to the stored selected columns. -/
theorem tuner_rounds_ok (tops : List Pipeline) : ∀ (n : Nat) (st : AlgoState) {b : List Pipeline} {st' : AlgoState},
    tuner_rounds tops st n = .ok (b, st') →
    (∃ T, st' = { st with tuners := T }) ∧ b.length = n * tops.length ∧
    (∀ q ∈ b, lookupAssoc q.parameters "Select Columns Transformer"
      = some [("columns", PVal.cols st.selected_cols)]) := by
  intro n
  induction n with
  | zero =>
    intro st b st' h
    cases h
    refine ⟨⟨st.tuners, rfl⟩, by simp, ?_⟩
    intro q hq
    cases hq
  | succ n ih =>
    intro st b st' h
    unfold tuner_rounds at h
    obtain ⟨a1, ha1, h2⟩ := except_bind_ok h
    obtain ⟨b1, st1⟩ := a1
    obtain ⟨a2, ha2, h3⟩ := except_bind_ok h2
    obtain ⟨bs, st2⟩ := a2
    cases h3
    obtain ⟨⟨T1, hT1⟩, hlen1, hall1⟩ := tuner_round_ok _ _ ha1
    subst hT1
    obtain ⟨⟨T2, hT2⟩, hlen2, hall2⟩ := ih _ ha2
    refine ⟨⟨T2, by rw [hT2]⟩, ?_, ?_⟩
    · rw [List.length_append, hlen1, hlen2, Nat.succ_mul, Nat.add_comm]
    · intro x hx
      rcases List.mem_append.mp hx with hx | hx
      · exact hall1 x hx
      · exact hall2 x hx

theorem long_round_ok (env : Env) : ∀ (tops : List Pipeline) (st : AlgoState) {b : List Pipeline} {st' : AlgoState},
    long_round env st tops = .ok (b, st') →
    (∃ T, st' = { st with tuners := T }) ∧ b.length = tops.length := by
  intro tops
  induction tops with
  | nil =>
    intro st b st' h
    cases h
    exact ⟨⟨st.tuners, rfl⟩, rfl⟩
  | cons p rest ih =>
    intro st b st' h
    unfold long_round at h
    obtain ⟨a1, ha1, h2⟩ := except_bind_ok h
    obtain ⟨q, st1⟩ := a1
    obtain ⟨a2, ha2, h3⟩ := except_bind_ok h2
    obtain ⟨qs, st2⟩ := a2
    cases h3
    have hst0 : ∃ T0, (if (lookupAssoc st.tuners p.name).isSome then st else create_tuner env st p)
        = { st with tuners := T0 } := by
      split
      · exact ⟨st.tuners, rfl⟩
      · exact create_tuner_shape env st p
    obtain ⟨T0, hT0⟩ := hst0
    rw [hT0] at ha1
    obtain ⟨⟨T1, hT1⟩, _⟩ := propose_and_make_ok ha1
    have hT1' : st1 = { st with tuners := T1 } := by rw [hT1]
    subst hT1'
    obtain ⟨⟨T2, hT2⟩, hlen⟩ := ih _ ha2
    exact ⟨⟨T2, by rw [hT2]⟩, by simp [hlen]⟩

theorem long_rounds_ok (env : Env) (tops : List Pipeline) : ∀ (n : Nat) (st : AlgoState) {b : List Pipeline} {st' : AlgoState},
    long_rounds env tops st n = .ok (b, st') →
    (∃ T, st' = { st with tuners := T }) := by
  intro n
  induction n with
  | zero =>
    intro st b st' h
    cases h
    exact ⟨st.tuners, rfl⟩
  | succ n ih =>
    intro st b st' h
    unfold long_rounds at h
    obtain ⟨a1, ha1, h2⟩ := except_bind_ok h
    obtain ⟨b1, st1⟩ := a1
    obtain ⟨a2, ha2, h3⟩ := except_bind_ok h2
    obtain ⟨bs, st2⟩ := a2
    cases h3
    obtain ⟨⟨T1, hT1⟩, _⟩ := long_round_ok env _ _ ha1
    subst hT1
    obtain ⟨T2, hT2⟩ := ih _ ha2
    exact ⟨T2, by rw [hT2]⟩

theorem create_long_top_n_ok {env : Env} {st : AlgoState} {n : Nat} {b : List Pipeline} {st' : AlgoState}
    (h : create_long_top_n env st n = .ok (b, st')) :
    ∃ tp T, st' = { st with top_n_pipelines := some tp, tuners := T } := by
  unfold create_long_top_n at h
  obtain ⟨T, hT⟩ := long_rounds_ok env _ _ _ h
  exact ⟨_, T, by rw [hT]⟩

/-- The pre-increment phase of `next_batch` never changes the counters or
the stored selected columns, whichever branch it takes. -/
theorem generate_batch_ok {env : Env} {st : AlgoState} {nb : List Pipeline} {st1 : AlgoState}
    (h : generate_batch env st = .ok (nb, st1)) :
    st1.pipeline_number = st.pipeline_number ∧ st1.batch_number = st.batch_number ∧
    st1.selected_cols = st.selected_cols := by
  unfold generate_batch at h
  split at h
  · cases h
    exact ⟨rfl, rfl, rfl⟩
  · split at h
    · cases h
      exact ⟨rfl, rfl, rfl⟩
    · split at h
      · injection h with h'
        obtain ⟨T, hT⟩ := create_fast_final_shape env st
        have hs : (create_fast_final env st).2 = st1 := congrArg Prod.snd h'
        rw [← hs, hT]
        exact ⟨rfl, rfl, rfl⟩
      · split at h
        · obtain ⟨b0, hb0, h2⟩ := except_bind_ok h
          cases h2
          exact ⟨rfl, rfl, rfl⟩
        · split at h
          · obtain ⟨tp, T, hT⟩ := create_long_top_n_ok h
            rw [hT]
            exact ⟨rfl, rfl, rfl⟩
          · split at h
            · obtain ⟨b0, hb0, h2⟩ := except_bind_ok h
              cases h2
              exact ⟨rfl, rfl, rfl⟩
            · cases hto : st.top_n_pipelines with
              | none =>
                rw [hto] at h
                cases h
              | some tops =>
                rw [hto] at h
                obtain ⟨⟨T, hT⟩, _, _⟩ := tuner_rounds_ok tops 10 st h
                rw [hT]
                exact ⟨rfl, rfl, rfl⟩

/-- One successful `next_batch` call advances `pipeline_number` by the batch
size and `batch_number` by one, and leaves the selected columns unchanged. -/
theorem next_batch_ok {env : Env} {st : AlgoState} {b : List Pipeline} {st' : AlgoState}
    (h : next_batch env st = .ok (b, st')) :
    st'.pipeline_number = st.pipeline_number + b.length ∧
    st'.batch_number = st.batch_number + 1 ∧
    st'.selected_cols = st.selected_cols := by
  unfold next_batch at h
  obtain ⟨a, ha, h2⟩ := except_bind_ok h
  obtain ⟨nb, st1⟩ := a
  injection h2 with h4
  rw [Prod.ext_iff] at h4
  obtain ⟨h5, h6⟩ := h4
  subst h5
  subst h6
  obtain ⟨h1, h2', h3⟩ := generate_batch_ok ha
  refine ⟨?_, ?_, h3⟩
  · show st1.pipeline_number + nb.length = _
    rw [h1]
  · show st1.batch_number + 1 = _
    rw [h2']

/-- `n` successful `next_batch` calls return `n` batches, advance
`pipeline_number` by the total batch size and `batch_number` by `n`. -/
theorem run_next_batches_ok (env : Env) : ∀ (n : Nat) (st : AlgoState) {bs : List (List Pipeline)} {st' : AlgoState},
    run_next_batches env st n = .ok (bs, st') →
    bs.length = n ∧
    st'.pipeline_number = st.pipeline_number + (bs.map List.length).sum ∧
    st'.batch_number = st.batch_number + n := by
  intro n
  induction n with
  | zero =>
    intro st bs st' h
    cases h
    exact ⟨rfl, by simp, rfl⟩
  | succ n ih =>
    intro st bs st' h
    unfold run_next_batches at h
    obtain ⟨a1, ha1, h2⟩ := except_bind_ok h
    obtain ⟨b, st1⟩ := a1
    obtain ⟨a2, ha2, h3⟩ := except_bind_ok h2
    obtain ⟨bs2, st2⟩ := a2
    cases h3
    obtain ⟨hp, hb, _⟩ := next_batch_ok ha1
    obtain ⟨hl, hp2, hb2⟩ := ih _ ha2
    refine ⟨by simp [hl], ?_, ?_⟩
    · rw [hp2, hp, List.map_cons, List.sum_cons]
      omega
    · rw [hb2, hb]
      omega

theorem check_custom_hp_vals_bad : ∀ (vs : List CompVal),
    (∀ v ∈ vs, ∃ es, v = CompVal.dict es) →
    (∃ v ∈ vs, ∃ es, v = CompVal.dict es ∧ ∃ e ∈ es, HPVal.isSpace e.2 = false) →
    check_custom_hp_vals vs = .error (.configurationError msgCustomLeaf) := by
  intro vs
  induction vs with
  | nil =>
    intro _ hex
    obtain ⟨v, hv, _⟩ := hex
    cases hv
  | cons v rest ih =>
    intro hall hex
    obtain ⟨es, hes⟩ := hall v (List.mem_cons_self _ _)
    subst hes
    unfold check_custom_hp_vals
    by_cases hany : es.any (fun e => !HPVal.isSpace e.2)
    · rw [if_pos hany]
    · rw [if_neg hany]
      apply ih
      · intro w hw
        exact hall w (List.mem_cons_of_mem _ hw)
      · obtain ⟨w, hw, es2, hw2, e, he, hbad⟩ := hex
        rcases List.mem_cons.mp hw with hw | hw
        · subst hw
          injection hw2 with hes2
          subst hes2
          exact absurd (List.any_eq_true.mpr ⟨e, he, by simp [hbad]⟩) hany
        · exact ⟨w, hw, es2, hw2, e, he, hbad⟩

theorem check_pipeline_param_vals_bad : ∀ (vs : List CompVal),
    (∀ v ∈ vs, ∃ es, v = CompVal.dict es) →
    (∃ v ∈ vs, ∃ es, v = CompVal.dict es ∧ ∃ e ∈ es, HPVal.isSpace e.2 = true) →
    check_pipeline_param_vals vs = .error (.configurationError msgPipelineSpace) := by
  intro vs
  induction vs with
  | nil =>
    intro _ hex
    obtain ⟨v, hv, _⟩ := hex
    cases hv
  | cons v rest ih =>
    intro hall hex
    obtain ⟨es, hes⟩ := hall v (List.mem_cons_self _ _)
    subst hes
    unfold check_pipeline_param_vals
    by_cases hany : es.any (fun e => HPVal.isSpace e.2)
    · rw [if_pos hany]
    · rw [if_neg hany]
      apply ih
      · intro w hw
        exact hall w (List.mem_cons_of_mem _ hw)
      · obtain ⟨w, hw, es2, hw2, e, he, hbad⟩ := hex
        rcases List.mem_cons.mp hw with hw | hw
        · subst hw
          injection hw2 with hes2
          subst hes2
          exact absurd (List.any_eq_true.mpr ⟨e, he, hbad⟩) hany
        · exact ⟨w, hw, es2, hw2, e, he, hbad⟩

theorem check_custom_hp_vals_good : ∀ (vs : List CompVal),
    (∀ v ∈ vs, ∃ es, v = CompVal.dict es ∧ ∀ e ∈ es, HPVal.isSpace e.2 = true) →
    check_custom_hp_vals vs = .ok () := by
  intro vs
  induction vs with
  | nil => intro _; rfl
  | cons v rest ih =>
    intro hall
    obtain ⟨es, hes, hsp⟩ := hall v (List.mem_cons_self _ _)
    subst hes
    unfold check_custom_hp_vals
    rw [if_neg, ih]
    · intro w hw
      exact hall w (List.mem_cons_of_mem _ hw)
    · intro hc
      obtain ⟨e, he, hbe⟩ := List.any_eq_true.mp hc
      rw [hsp e he] at hbe
      cases hbe

theorem check_pipeline_param_vals_good : ∀ (vs : List CompVal),
    (∀ v ∈ vs, ∃ es, v = CompVal.dict es ∧ ∀ e ∈ es, HPVal.isSpace e.2 = false) →
    check_pipeline_param_vals vs = .ok () := by
  intro vs
  induction vs with
  | nil => intro _; rfl
  | cons v rest ih =>
    intro hall
    obtain ⟨es, hes, hsp⟩ := hall v (List.mem_cons_self _ _)
    subst hes
    unfold check_pipeline_param_vals
    rw [if_neg, ih]
    · intro w hw
      exact hall w (List.mem_cons_of_mem _ hw)
    · intro hc
      obtain ⟨e, he, hbe⟩ := List.any_eq_true.mp hc
      rw [hsp e he] at hbe
      cases hbe

theorem pipeline_params_check_good (pp : TopArg) (h : GoodPipelineArg pp) :
    pipeline_params_check pp = .ok () := by
  rcases h with h | ⟨es, hes, hall⟩
  · subst h
    rfl
  · subst hes
    cases es with
    | nil => rfl
    | cons c cs =>
      show check_pipeline_param_vals ((c :: cs).map Prod.snd) = .ok ()
      apply check_pipeline_param_vals_good
      intro v hv
      obtain ⟨cv, hcv, hveq⟩ := List.mem_map.mp hv
      obtain ⟨entries, hce, hsp⟩ := hall cv hcv
      exact ⟨entries, by rw [← hveq, hce], hsp⟩

theorem custom_hyperparameters_check_good (ch : TopArg) (h : GoodCustomArg ch) :
    custom_hyperparameters_check ch = .ok () := by
  rcases h with h | ⟨es, hes, hall⟩
  · subst h
    rfl
  · subst hes
    cases es with
    | nil => rfl
    | cons c cs =>
      show check_custom_hp_vals ((c :: cs).map Prod.snd) = .ok ()
      apply check_custom_hp_vals_good
      intro v hv
      obtain ⟨cv, hcv, hveq⟩ := List.mem_map.mp hv
      obtain ⟨entries, hce, hsp⟩ := hall cv hcv
      exact ⟨entries, by rw [← hveq, hce], hsp⟩

/-- C4 (amended): construction fails with the configuration error
(`ValueError` in the source, `ConfigurationError` in the specification's
taxonomy) when `custom_hyperparameters` is provided, truthy and not a
mapping; when, the earlier checks passing, some leaf of a
`custom_hyperparameters` component dict is not a skopt.Space object; and
when some leaf of a `pipeline_params` component dict is a skopt.Space
object; construction with well-formed arguments raises no error.  (The
unamended claim also demanded the error for falsy non-mappings such as
`[]`, which the source lets through; see the counterexample.) -/
theorem C4_config_errors_amended :
    (∀ (pp ch : TopArg), ch.truthy = true → ch.isDict = false →
      init_check pp ch = .error (.configurationError msgCustomType))
    ∧ (∀ (pp : TopArg) (es : List (String × CompVal)),
      pipeline_params_check pp = .ok () →
      (∀ cv ∈ es, ∃ entries, cv.2 = CompVal.dict entries) →
      (∃ cv ∈ es, ∃ entries, cv.2 = CompVal.dict entries ∧ ∃ e ∈ entries, HPVal.isSpace e.2 = false) →
      init_check pp (TopArg.dict es) = .error (.configurationError msgCustomLeaf))
    ∧ (∀ (ch : TopArg) (es : List (String × CompVal)),
      ¬(ch.truthy = true ∧ ch.isDict = false) →
      (∀ cv ∈ es, ∃ entries, cv.2 = CompVal.dict entries) →
      (∃ cv ∈ es, ∃ entries, cv.2 = CompVal.dict entries ∧ ∃ e ∈ entries, HPVal.isSpace e.2 = true) →
      init_check (TopArg.dict es) ch = .error (.configurationError msgPipelineSpace))
    ∧ (∀ (pp ch : TopArg), GoodPipelineArg pp → GoodCustomArg ch →
      init_check pp ch = .ok ()) := by
  refine ⟨?_, ?_, ?_, ?_⟩
  · intro pp ch h1 h2
    unfold init_check
    rw [if_pos ⟨h1, h2⟩]
  · intro pp es hpp hall hex
    unfold init_check
    rw [if_neg (by simp [TopArg.isDict])]
    show (pipeline_params_check pp >>= fun _ => custom_hyperparameters_check (TopArg.dict es)) = _
    rw [hpp]
    show custom_hyperparameters_check (TopArg.dict es) = _
    obtain ⟨cv, hcv, entries, hce, e, he, hbad⟩ := hex
    cases es with
    | nil => cases hcv
    | cons c cs =>
      show check_custom_hp_vals ((c :: cs).map Prod.snd) = _
      apply check_custom_hp_vals_bad
      · intro v hv
        obtain ⟨w, hw, hveq⟩ := List.mem_map.mp hv
        obtain ⟨entries2, hw2⟩ := hall w hw
        exact ⟨entries2, by rw [← hveq, hw2]⟩
      · exact ⟨cv.2, List.mem_map.mpr ⟨cv, hcv, rfl⟩, entries, hce, e, he, hbad⟩
  · intro ch es hch hall hex
    unfold init_check
    rw [if_neg hch]
    obtain ⟨cv, hcv, entries, hce, e, he, hbad⟩ := hex
    cases es with
    | nil => cases hcv
    | cons c cs =>
      have hbadpp : pipeline_params_check (TopArg.dict (c :: cs))
          = .error (.configurationError msgPipelineSpace) := by
        show check_pipeline_param_vals ((c :: cs).map Prod.snd) = _
        apply check_pipeline_param_vals_bad
        · intro v hv
          obtain ⟨w, hw, hveq⟩ := List.mem_map.mp hv
          obtain ⟨entries2, hw2⟩ := hall w hw
          exact ⟨entries2, by rw [← hveq, hw2]⟩
        · exact ⟨cv.2, List.mem_map.mpr ⟨cv, hcv, rfl⟩, entries, hce, e, he, hbad⟩
      show (pipeline_params_check (TopArg.dict (c :: cs)) >>= fun _ => custom_hyperparameters_check ch) = _
      rw [hbadpp]
      rfl
  · intro pp ch hpp hch
    have hcond : ¬(ch.truthy = true ∧ ch.isDict = false) := by
      rcases hch with h | ⟨es, hes, _⟩
      · subst h
        simp [TopArg.truthy]
      · subst hes
        simp [TopArg.isDict]
    unfold init_check
    rw [if_neg hcond]
    show (pipeline_params_check pp >>= fun _ => custom_hyperparameters_check ch) = _
    rw [pipeline_params_check_good pp hpp]
    show custom_hyperparameters_check ch = _
    exact custom_hyperparameters_check_good ch hch

/-- C4 (counterexample): the claim as stated is false — the empty list `[]`
is a provided non-mapping `custom_hyperparameters`, yet construction
succeeds, because the source guards the type check with the argument's
truthiness (`if custom_hyperparameters and not isinstance(...)`) and then
replaces the falsy value by `{}`. -/
theorem C4_counterexample :
    init_check TopArg.pyNone (TopArg.nonDict false) = .ok () := rfl

/-- C4 (witness): a truthy non-mapping `custom_hyperparameters` raises the
configuration error. -/
theorem C4_witness :
    init_check TopArg.pyNone (TopArg.nonDict true)
      = .error (.configurationError msgCustomType) :=
  C4_config_errors_amended.1 TopArg.pyNone (TopArg.nonDict true) rfl rfl

/-- C10: the constructor's validation is incomplete at the public interface:
a mapping whose per-component value is not itself a mapping (here
`Estimator ↦ 5`), passed as `pipeline_params` or as
`custom_hyperparameters`, raises the unclassified `AttributeError` coming
from iterating `.items()` on the value, not the documented configuration
error. -/
theorem C10_nonmapping_component_value :
    init_check (TopArg.dict [("Estimator", CompVal.nonDict (HPVal.plainInt 5))]) TopArg.pyNone
      = .error InitErr.attributeError ∧
    init_check TopArg.pyNone (TopArg.dict [("Estimator", CompVal.nonDict (HPVal.plainInt 5))])
      = .error InitErr.attributeError :=
  ⟨rfl, rfl⟩

/-- C5 (amended): when the backend raises during `opt.tell` on a non-null
score, the tuner re-raises a `ParameterError` exactly when the exception
text is the int-None comparison error (the manifestation of an
out-of-dimension value), and the `ParameterError` carries the offending
parameters and the backend's error text in its message; every other
backend exception propagates unchanged.  (The unamended claim said the
`ParameterError` also carries the score; it does not — see the
counterexample.) -/
theorem C5_parameter_error_amended (b : SKOptBackend) (t : SKOptTunerState)
    (params : TunerParams) (s : PyScore) (e : String)
    (hnull : pd_isnull s = false)
    (htell : b.tellErr (convert_to_flat_parameters t.searchSpace params) s = some e) :
    SKOptTuner_add b t params s =
      (if e = intNoneTypeMsg then AddResult.parameterError (badParamsMsg params e)
       else AddResult.raised e) := by
  have h1 : SKOptTuner_add b t params s =
      (match b.tellErr (convert_to_flat_parameters t.searchSpace params) s with
       | none => AddResult.ok
           { t with told := t.told ++ [(convert_to_flat_parameters t.searchSpace params, s)] }
       | some e => if e = intNoneTypeMsg then AddResult.parameterError (badParamsMsg params e)
           else AddResult.raised e) := by
    unfold SKOptTuner_add
    rw [if_neg (by simp [hnull])]
  rw [h1, htell]

/-- C5 (counterexample): the `ParameterError` raised by `add` does not
carry the score — two calls with different scores that both trigger the
int-None comparison error produce the identical `ParameterError` value,
whose message mentions only the parameters and the backend error text. -/
theorem C5_counterexample :
    SKOptTuner_add bC5 tC5 psC5 (PyScore.fin 1) = SKOptTuner_add bC5 tC5 psC5 (PyScore.fin 2) ∧
    SKOptTuner_add bC5 tC5 psC5 (PyScore.fin 1)
      = AddResult.parameterError (badParamsMsg psC5 intNoneTypeMsg) :=
  ⟨rfl, rfl⟩

/-- C5 (witness): a concrete rejected observation yields the
`ParameterError` branch of the amended theorem. -/
theorem C5_witness :
    SKOptTuner_add bC5 tC5 psC5 (PyScore.fin 1) =
      (if intNoneTypeMsg = intNoneTypeMsg
       then AddResult.parameterError (badParamsMsg psC5 intNoneTypeMsg)
       else AddResult.raised intNoneTypeMsg) :=
  C5_parameter_error_amended bC5 tC5 psC5 (PyScore.fin 1) intNoneTypeMsg rfl rfl

/-- C6 (amended): `add` is a silent no-op exactly for null scores (`None`
and `NaN`, the values `pd.isnull` accepts): the tuner state is returned
unchanged, nothing reaches the backend, and every subsequent proposal
sequence is unaffected.  (The unamended claim covered all non-finite
scores; an infinite score is not null and is fed to the backend — see the
counterexample.) -/
theorem C6_null_noop_amended :
    (∀ s, pd_isnull s = true ↔ (s = PyScore.none_ ∨ s = PyScore.nan))
    ∧ (∀ (b : SKOptBackend) (t : SKOptTunerState) (params : TunerParams) (s : PyScore),
      pd_isnull s = true → SKOptTuner_add b t params s = AddResult.ok t)
    ∧ (∀ (b : SKOptBackend) (t : SKOptTunerState) (params : TunerParams) (s : PyScore) (n : Nat),
      pd_isnull s = true →
      propose_seq b (state_after_add b t params s) n = propose_seq b t n) := by
  refine ⟨?_, ?_, ?_⟩
  · intro s
    cases s <;> simp [pd_isnull]
  · intro b t params s h
    unfold SKOptTuner_add
    rw [if_pos h]
  · intro b t params s n h
    have hadd : SKOptTuner_add b t params s = AddResult.ok t := by
      unfold SKOptTuner_add
      rw [if_pos h]
    unfold state_after_add
    rw [hadd]

/-- C6 (counterexample): an infinite score is not null, so `add` is not a
no-op for it — the observation is fed to the backend (the told-observations
list grows), and a subsequent proposal differs from what it would have been
had `add` never been called. -/
theorem C6_counterexample :
    SKOptTuner_add bC6 tC6 psC6 PyScore.inf
      = AddResult.ok { tC6 with told := [([FlatVal.int 3], PyScore.inf)] } ∧
    propose_seq bC6 { tC6 with told := [([FlatVal.int 3], PyScore.inf)] } 1
      ≠ propose_seq bC6 tC6 1 :=
  ⟨rfl, by decide⟩

/-- C6 (witness): a `None` score leaves the tuner state and the proposal
sequence untouched. -/
theorem C6_witness :
    SKOptTuner_add bC6 tC6 psC6 PyScore.none_ = AddResult.ok tC6 ∧
    propose_seq bC6 (state_after_add bC6 tC6 psC6 PyScore.none_) 2 = propose_seq bC6 tC6 2 :=
  ⟨C6_null_noop_amended.2.1 bC6 tC6 psC6 PyScore.none_ rfl,
   C6_null_noop_amended.2.2 bC6 tC6 psC6 PyScore.none_ 2 rfl⟩

/-- C1: starting from an empty table, after any successful run of
`add_result` calls the recorded score of every family equals the minimum of
the non-null scores of the non-ensemble results of that family, and no
ensemble entry ever exists; moreover a single `add_result` never changes
the table when the pipeline is an ensemble, never changes it when the
incoming score does not strictly beat the family's current best, and any
change requires a non-null score that strictly beats the current best of a
non-ensemble family. -/
theorem C1_best_info_lowest :
    (∀ (st : AlgoState) (cs : List ResultCall) (st' : AlgoState),
      st.best_pipeline_info = [] → run_add_results st cs = .ok st' →
      (∀ f, (lookupAssoc st'.best_pipeline_info f).map BestInfo.mean_cv_score
        = (familyScores f cs).min?) ∧
      lookupAssoc st'.best_pipeline_info ModelFamily.ensemble = none)
    ∧ (∀ (st : AlgoState) (s : Option ℚ) (p : Pipeline) (rid : Nat) (st' : AlgoState),
      add_result st s p rid = .ok st' → p.modelFamily = ModelFamily.ensemble →
      st'.best_pipeline_info = st.best_pipeline_info)
    ∧ (∀ (st : AlgoState) (s : ℚ) (p : Pipeline) (rid : Nat) (st' : AlgoState) (c : ℚ),
      add_result st (some s) p rid = .ok st' →
      (lookupAssoc st.best_pipeline_info p.modelFamily).map BestInfo.mean_cv_score = some c →
      c ≤ s → st'.best_pipeline_info = st.best_pipeline_info)
    ∧ (∀ (st : AlgoState) (s : Option ℚ) (p : Pipeline) (rid : Nat) (st' : AlgoState),
      add_result st s p rid = .ok st' →
      st'.best_pipeline_info ≠ st.best_pipeline_info →
      ∃ s0, s = some s0 ∧ p.modelFamily ≠ ModelFamily.ensemble ∧
        score_beats_current s0
          ((lookupAssoc st.best_pipeline_info p.modelFamily).map BestInfo.mean_cv_score) = true) := by
  refine ⟨?_, ?_, ?_, ?_⟩
  · intro st cs st' h0 hrun
    have hmin := run_add_results_min cs st st' hrun
    constructor
    · intro f
      have hf := hmin f
      rw [h0] at hf
      rw [hf]
      exact runningMin_none_eq_min? _
    · have hf := hmin ModelFamily.ensemble
      rw [h0] at hf
      have hfs : familyScores ModelFamily.ensemble cs = [] := by
        unfold familyScores
        rw [List.filterMap_eq_nil_iff]
        intro c _
        rw [if_neg]
        intro hc
        exact hc.2 rfl
      rw [hfs] at hf
      exact Option.map_eq_none'.mp hf
  · intro st s p rid st' h hp
    rw [(add_result_ok_spec h).2.2.1]
    cases s with
    | none => rfl
    | some s0 =>
      apply best_info_update_some_neg
      intro hx
      exact hx.2 hp
  · intro st s p rid st' c h hc hcs
    rw [(add_result_ok_spec h).2.2.1]
    apply best_info_update_some_neg
    intro hx
    rw [hc] at hx
    have hlt := hx.1
    simp only [score_beats_current, decide_eq_true_eq] at hlt
    exact absurd hlt (not_lt.mpr hcs)
  · intro st s p rid st' h hne
    rw [(add_result_ok_spec h).2.2.1] at hne
    cases s with
    | none => exact absurd (best_info_update_none _ _ _) hne
    | some s0 =>
      by_cases hcond : score_beats_current s0
          ((lookupAssoc st.best_pipeline_info p.modelFamily).map BestInfo.mean_cv_score) = true
          ∧ p.modelFamily ≠ ModelFamily.ensemble
      · exact ⟨s0, rfl, hcond.2, hcond.1⟩
      · exact absurd (best_info_update_some_neg _ _ _ _ hcond) hne

/-- C1 (witness): recording a score of 2 and then a worse score of 3 for
the same family leaves the family's entry at the minimum, 2, with no
ensemble entry. -/
theorem C1_witness :
    run_add_results stW c1calls = .ok stC1after ∧
    (lookupAssoc stC1after.best_pipeline_info ModelFamily.linearModel).map BestInfo.mean_cv_score
      = (familyScores ModelFamily.linearModel c1calls).min? ∧
    lookupAssoc stC1after.best_pipeline_info ModelFamily.ensemble = none := by
  have hrun : run_add_results stW c1calls = .ok stC1after := rfl
  have h := C1_best_info_lowest.1 stW c1calls stC1after rfl hrun
  exact ⟨hrun, h.1 ModelFamily.linearModel, h.2⟩

/-- C2: when `add_result` succeeds with the batch counter at 2 (the point
at which the feature-selection batch's results arrive) and no selected
columns recorded yet, the column names are read from the pipeline's RF
feature-selection component via `get_names()` and stored; once stored,
they are never overwritten by any later call; and no call outside batch
counter 2 ever changes them. -/
theorem C2_selected_cols_once (st : AlgoState) (s : Option ℚ) (p : Pipeline) (rid : Nat)
    (st' : AlgoState) (h : add_result st s p rid = .ok st') :
    (st.batch_number = 2 → st.selected_cols = none →
      ∃ comp, p.get_component (rf_selector_name st) = some comp ∧
        st'.selected_cols = some comp.getNames)
    ∧ (∀ c, st.selected_cols = some c → st'.selected_cols = some c)
    ∧ (st.batch_number ≠ 2 → st'.selected_cols = st.selected_cols) := by
  obtain ⟨_, _, _, _, hsel, hcomp⟩ := add_result_ok_spec h
  refine ⟨?_, ?_, ?_⟩
  · intro h2 hn
    have hs := hcomp h2 hn
    cases hgc : p.get_component (rf_selector_name st) with
    | none =>
      rw [hgc] at hs
      cases hs
    | some comp =>
      refine ⟨comp, rfl, ?_⟩
      rw [hsel, if_pos ⟨h2, hn⟩, hgc]
      rfl
  · intro c hc
    rw [hsel]
    split
    · rename_i hx
      rw [hc] at hx
      exact absurd hx.2 (by simp)
    · exact hc
  · intro h2
    rw [hsel, if_neg (fun hx => h2 hx.1)]

/-- C2 (witness): a feature-selection result at batch counter 2 stores the
component's chosen column names. -/
theorem C2_witness :
    add_result stC2 (some 1) pX 7 = .ok stC2after ∧
    stC2after.selected_cols = some ["a", "b"] := by
  have hadd : add_result stC2 (some 1) pX 7 = .ok stC2after := rfl
  obtain ⟨comp, hc, hsel⟩ := (C2_selected_cols_once stC2 (some 1) pX 7 stC2after hadd).1 rfl rfl
  have hcc : pX.get_component (rf_selector_name stC2) = some compX := rfl
  rw [hc] at hcc
  have hcomp : comp = compX := Option.some.inj hcc
  subst hcomp
  refine ⟨hadd, ?_⟩
  rw [hsel]
  rfl

/-- C3: a successful `add_result` appends the result to the base class's
bookkeeping log exactly when the pipeline is not an ensemble and the batch
counter is at least 3; in particular results at batch counters 0, 1 and 2
are never forwarded, and ensemble results are never forwarded at any
batch. -/
theorem C3_forwarding_policy (st : AlgoState) (s : Option ℚ) (p : Pipeline) (rid : Nat)
    (st' : AlgoState) (h : add_result st s p rid = .ok st') :
    st'.forwarded = (if p.modelFamily ≠ ModelFamily.ensemble ∧ 3 ≤ st.batch_number
      then st.forwarded ++ [(s, p.name)] else st.forwarded) :=
  (add_result_ok_spec h).2.2.2.1

/-- C3 (witness): a non-ensemble result arriving at batch counter 5 is
forwarded. -/
theorem C3_witness :
    add_result stC3 none pW 0 = .ok stC3after ∧
    stC3after.forwarded = stC3.forwarded ++ [(none, pW.name)] := by
  have hadd : add_result stC3 none pW 0 = .ok stC3after := rfl
  have h := C3_forwarding_policy stC3 none pW 0 stC3after hadd
  rw [if_pos ⟨by decide, by decide⟩] at h
  exact ⟨hadd, h⟩

/-- C7: `n` successful calls of `next_batch` return `n` batches and
increase `pipeline_number` by exactly the sum of the batch sizes and
`batch_number` by exactly `n`; the only other public operation,
`add_result`, changes neither counter. -/
theorem C7_counters :
    (∀ (env : Env) (n : Nat) (st : AlgoState) (bs : List (List Pipeline)) (st' : AlgoState),
      run_next_batches env st n = .ok (bs, st') →
      bs.length = n ∧
      st'.pipeline_number = st.pipeline_number + (bs.map List.length).sum ∧
      st'.batch_number = st.batch_number + n)
    ∧ (∀ (st : AlgoState) (s : Option ℚ) (p : Pipeline) (rid : Nat) (st' : AlgoState),
      add_result st s p rid = .ok st' →
      st'.pipeline_number = st.pipeline_number ∧ st'.batch_number = st.batch_number) := by
  refine ⟨?_, ?_⟩
  · intro env n st bs st' h
    exact run_next_batches_ok env n st h
  · intro st s p rid st' h
    exact ⟨(add_result_ok_spec h).1, (add_result_ok_spec h).2.1⟩

/-- C7 (witness): one `next_batch` call from a batch-3 state with one
recorded family returns one singleton batch and advances the counters
accordingly. -/
theorem C7_witness :
    run_next_batches envW stC7 1 = .ok ([[pEnsW]], stC7after) ∧
    [[pEnsW]].length = 1 ∧
    stC7after.pipeline_number = stC7.pipeline_number + ([[pEnsW]].map List.length).sum ∧
    stC7after.batch_number = stC7.batch_number + 1 := by
  have hrun : run_next_batches envW stC7 1 = .ok ([[pEnsW]], stC7after) := rfl
  have h := C7_counters.1 envW 1 stC7 [[pEnsW]] stC7after hrun
  exact ⟨hrun, h.1, h.2.1, h.2.2⟩

/-- C8: from batch index 5 onward the schedule is a two-phase cycle.  Every
odd batch index at least 5 re-runs the ensemble construction over the
current best-per-family table, producing exactly the batch that batch index
3 would produce from the same state; every even batch index at least 6
yields ten tuner proposals per pipeline of the fixed top-n set (30
pipelines when three qualify), each materialized with the column-selection
parameter bound to the stored selected columns. -/
theorem C8_tail_cycle :
    (∀ (env : Env) (st : AlgoState), 5 ≤ st.batch_number → st.batch_number % 2 = 1 →
      Except.map Prod.fst (next_batch env st) = create_ensemble env st ∧
      Except.map Prod.fst (next_batch env st)
        = Except.map Prod.fst (next_batch env { st with batch_number := 3 }))
    ∧ (∀ (env : Env) (st : AlgoState) (tops b : List Pipeline) (st' : AlgoState),
      6 ≤ st.batch_number → st.batch_number % 2 = 0 →
      st.top_n_pipelines = some tops →
      next_batch env st = .ok (b, st') →
      b.length = 10 * tops.length ∧
      (tops.length = 3 → b.length = 30) ∧
      (∀ q ∈ b, lookupAssoc q.parameters "Select Columns Transformer"
        = some [("columns", PVal.cols st.selected_cols)])) := by
  constructor
  · intro env st h5 hodd
    have hgen : generate_batch env st = (do
        let b ← create_ensemble env st
        Except.ok (b, st)) := by
      unfold generate_batch
      rw [if_neg (by omega), if_neg (by omega), if_neg (by omega), if_neg (by omega),
        if_neg (by omega), if_pos (by omega)]
    have hgen3 : generate_batch env { st with batch_number := 3 } = (do
        let b ← create_ensemble env { st with batch_number := 3 }
        Except.ok (b, { st with batch_number := 3 })) := by
      unfold generate_batch
      rw [if_neg (by simp), if_neg (by simp), if_neg (by simp), if_pos (by rfl)]
    have hce3 : create_ensemble env { st with batch_number := 3 } = create_ensemble env st := rfl
    constructor
    · unfold next_batch
      rw [hgen]
      cases hce : create_ensemble env st with
      | error e => simp [hce, Bind.bind, Except.bind, Except.map]
      | ok bb => simp [hce, Bind.bind, Except.bind, Except.map]
    · unfold next_batch
      rw [hgen, hgen3, hce3]
      cases hce : create_ensemble env st with
      | error e => simp [hce, Bind.bind, Except.bind, Except.map]
      | ok bb => simp [hce, Bind.bind, Except.bind, Except.map]
  · intro env st tops b st' h6 heven htop h
    unfold next_batch at h
    obtain ⟨a, ha, h2⟩ := except_bind_ok h
    obtain ⟨nb, st1⟩ := a
    injection h2 with h4
    rw [Prod.ext_iff] at h4
    obtain ⟨h5', h6'⟩ := h4
    subst h5'
    have hgen : generate_batch env st = tuner_rounds tops st 10 := by
      unfold generate_batch
      rw [if_neg (by omega), if_neg (by omega), if_neg (by omega), if_neg (by omega),
        if_neg (by omega), if_neg (by omega), htop]
    rw [hgen] at ha
    obtain ⟨_, hlen, hall⟩ := tuner_rounds_ok tops 10 st ha
    refine ⟨hlen, ?_, hall⟩
    intro h3
    rw [hlen, h3]

/-- C8 (witness): at odd batch counter 5 the batch equals the ensemble
batch of a batch-3 state; at even batch counter 6 a single top pipeline
yields ten proposals, each with the column selection bound to the stored
columns. -/
theorem C8_witness :
    (Except.map Prod.fst (next_batch envW stC8odd) = create_ensemble envW stC8odd ∧
     Except.map Prod.fst (next_batch envW stC8odd)
       = Except.map Prod.fst (next_batch envW { stC8odd with batch_number := 3 })) ∧
    ((List.replicate 10 qC8).length = 10 * [pW].length ∧
     ∀ q ∈ List.replicate 10 qC8, lookupAssoc q.parameters "Select Columns Transformer"
       = some [("columns", PVal.cols stC8even.selected_cols)]) := by
  constructor
  · exact C8_tail_cycle.1 envW stC8odd (by decide) (by decide)
  · have hnb : next_batch envW stC8even = .ok (List.replicate 10 qC8, stC8evenAfter) := rfl
    have h := C8_tail_cycle.2 envW stC8even [pW] (List.replicate 10 qC8) stC8evenAfter
      (by decide) (by decide) rfl hnb
    exact ⟨h.1, h.2.2⟩

/-- C9 (amended): an ensemble batch (batch 3 or an odd batch at least 5)
with exactly one qualifying family proceeds without error, returning a
single stacked-ensemble pipeline built from that family's best pipeline;
with zero qualifying families it does not proceed — it raises the
`IndexError` of `input_pipelines[0]` (see the counterexample). -/
theorem C9_ensemble_degenerate_amended (env : Env) (st : AlgoState) (f : ModelFamily)
    (info : BestInfo) (h1 : st.best_pipeline_info = [(f, info)])
    (h2 : st.batch_number = 3 ∨ (5 ≤ st.batch_number ∧ st.batch_number % 2 = 1)) :
    next_batch env st = .ok
      ([env.mk_stacked_ensemble
          [info.pipeline.new (transform_parameters st info.pipeline info.parameters) st.random_seed]
          st.random_seed (if st.text_in_ensembling then 1 else st.n_jobs)],
        { st with pipeline_number := st.pipeline_number + 1, batch_number := st.batch_number + 1 }) := by
  have hce : create_ensemble env st = .ok [env.mk_stacked_ensemble
      [info.pipeline.new (transform_parameters st info.pipeline info.parameters) st.random_seed]
      st.random_seed (if st.text_in_ensembling then 1 else st.n_jobs)] := by
    unfold create_ensemble
    rw [h1]
    rfl
  have hgen : generate_batch env st = (do
      let b ← create_ensemble env st
      Except.ok (b, st)) := by
    unfold generate_batch
    rcases h2 with h2 | ⟨h2a, h2b⟩
    · rw [if_neg (by omega), if_neg (by omega), if_neg (by omega), if_pos h2]
    · rw [if_neg (by omega), if_neg (by omega), if_neg (by omega), if_neg (by omega),
        if_neg (by omega), if_pos (by omega)]
  unfold next_batch
  rw [hgen, hce]
  rfl

/-- C9 (counterexample): an ensemble batch with zero qualifying families
does not proceed — `input_pipelines[0]` on the empty input list raises
`IndexError`, so the claim's "including zero" case is false. -/
theorem C9_counterexample :
    next_batch envW stC9empty = .error RunErr.indexError := rfl

/-- C9 (witness): with exactly one recorded family the ensemble batch
returns a single stacked-ensemble pipeline. -/
theorem C9_witness :
    next_batch envW stC7 = .ok
      ([envW.mk_stacked_ensemble
          [bestW.pipeline.new (transform_parameters stC7 bestW.pipeline bestW.parameters) stC7.random_seed]
          stC7.random_seed (if stC7.text_in_ensembling then 1 else stC7.n_jobs)],
        { stC7 with pipeline_number := stC7.pipeline_number + 1, batch_number := stC7.batch_number + 1 }) :=
  C9_ensemble_degenerate_amended envW stC7 ModelFamily.linearModel bestW rfl (Or.inl rfl)
